import Mathlib

/-!
Verification of the LE Audio broadcast-source state machine fragment of the
fortuneOS-AOSP/packages_modules_Bluetooth repository.

The shallow embedding covers:
* the generic bounded state holder `StateMachine<S, StateT>` and the
  constants, enums and inline accessors of `BroadcastStateMachine`, taken
  verbatim from `system/bta/le_audio/broadcaster/state_machine.h`;
* the broadcast state-machine transition behaviour, whose implementation
  file is not part of this fragment and is therefore modelled from the
  specification (each such definition is marked `Modelled from the spec:`);
* the advertising tx-power mapping `ble_map_adv_tx_power` from
  `system/btif/src/btif_ble_advertiser.cc`.

Machine integers are modelled as `Nat` (all relevant values are small and
no arithmetic wraps anywhere in the embedded code).
-/

namespace BtBroadcast

/-- The generic bounded state holder `template <int S, typename StateT = uint8_t>
class StateMachine` from `state_machine.h` lines 32-47.  `StateT` is
`uint8_t` for the broadcaster; the stored value is modelled as `Nat`.
The constructor initializes `state_` to `std::numeric_limits<StateT>::min()`,
which is `0` for `uint8_t`. -/
structure StateMachine (S : Nat) where
  state_ : Nat
deriving DecidableEq, Repr

/-- Constructor `StateMachine() : state_(std::numeric_limits<StateT>::min())`. -/
def StateMachine.init (S : Nat) : StateMachine S := ⟨0⟩

/-- Accessor `StateT GetState() const { return state_; }`. -/
def StateMachine.GetState {S : Nat} (m : StateMachine S) : Nat := m.state_

/-- Mutator `void SetState(StateT state) { if (state < S) { state_ = state; } }`:
values not below the bound are silently dropped. -/
def StateMachine.SetState {S : Nat} (m : StateMachine S) (state : Nat) : StateMachine S :=
  if state < S then { state_ := state } else m

/-- Constant `kAdvSidUndefined = 0xFF` from `state_machine.h`. -/
def kAdvSidUndefined : Nat := 0xFF

/-- Constant `kPaIntervalMax = 0xA0` (160 * 0.625 = 100 ms) from `state_machine.h`. -/
def kPaIntervalMax : Nat := 0xA0

/-- Constant `kPaIntervalMin = 0x50` (80 * 0.625 = 50 ms) from `state_machine.h`. -/
def kPaIntervalMin : Nat := 0x50

/-- Enum `BroadcastStateMachine::State` from `state_machine.h`, ordinals 0-6. -/
inductive State where
  | STOPPED
  | CONFIGURING
  | CONFIGURED
  | ENABLING
  | DISABLING
  | STOPPING
  | STREAMING
deriving DecidableEq, Repr

/-- Numeric value of a `State` enumerator (`STOPPED = 0`, ..., `STREAMING = 6`). -/
def State.toNat : State → Nat
  | .STOPPED => 0
  | .CONFIGURING => 1
  | .CONFIGURED => 2
  | .ENABLING => 3
  | .DISABLING => 4
  | .STOPPING => 5
  | .STREAMING => 6

/-- The `static_cast<State>` applied by `BroadcastStateMachine::GetState` to the
raw stored byte; values at or above `STATE_COUNT` never occur (the bounded
holder rejects them), the catch-all arm is arbitrary. -/
def State.fromNat : Nat → State
  | 0 => .STOPPED
  | 1 => .CONFIGURING
  | 2 => .CONFIGURED
  | 3 => .ENABLING
  | 4 => .DISABLING
  | 5 => .STOPPING
  | 6 => .STREAMING
  | _ => .STOPPED

/-- `STATE_COUNT = static_cast<uint8_t>(State::STREAMING) + 1`. -/
def STATE_COUNT : Nat := State.STREAMING.toNat + 1

/-- Enum `BroadcastStateMachine::Message` from `state_machine.h`. -/
inductive Message where
  | START
  | SUSPEND
  | STOP
deriving DecidableEq, Repr

/-- `MESSAGE_COUNT = static_cast<uint8_t>(Message::STOP) + 1 = 3`. -/
def MESSAGE_COUNT : Nat := 3

/-- Struct `BigConfig` from `state_machine.h` lines 90-103: the controller's
BIG-creation completion snapshot. -/
structure BigConfig where
  status : Nat
  big_id : Nat
  big_sync_delay : Nat
  transport_latency_big : Nat
  phy : Nat
  nse : Nat
  bn : Nat
  pto : Nat
  irc : Nat
  max_pdu : Nat
  iso_interval : Nat
  connection_handles : List Nat
deriving DecidableEq, Repr

/-- Placeholder for `bluetooth::le_audio::BroadcastConfiguration` (declared in
`broadcaster_types.h`, outside this fragment); only carried, never inspected,
by the state machine. -/
structure BroadcastConfiguration where
  data : List Nat
deriving DecidableEq, Repr

/-- Placeholder for `PublicBroadcastAnnouncementData` (outside this fragment). -/
structure PublicBroadcastAnnouncementData where
  data : List Nat
deriving DecidableEq, Repr

/-- Placeholder for `BasicAudioAnnouncementData` (outside this fragment). -/
structure BasicAudioAnnouncementData where
  data : List Nat
deriving DecidableEq, Repr

/-- Struct `BroadcastStateMachineConfig` from `state_machine.h` lines 105-114. -/
structure BroadcastStateMachineConfig where
  is_public : Bool
  broadcast_id : Nat
  broadcast_name : String
  streaming_phy : Nat
  config : BroadcastConfiguration
  public_announcement : PublicBroadcastAnnouncementData
  announcement : BasicAudioAnnouncementData
  broadcast_code : Option (List Nat)
deriving DecidableEq, Repr

/-- HCI success status byte. -/
def kHciStatusSuccess : Nat := 0

/-- Modelled from the spec: the concrete `BroadcastStateMachine` implementation
(the `.cc` body is not part of this fragment).  The header contributes the
inherited `StateMachine<7>` holder `sm_` and the member initializers
`advertising_sid_ = kAdvSidUndefined`, `is_muted_ = false`, `addr_type_ = 0`.
The remaining fields model the implementation state the specification
describes: the owned `BigConfig` snapshot, the periodic-advertising enable
flag, the per-BIS ISO data paths still pending setup and those already set up
in the current enable attempt, and `big_active_`, which records that a
successful BIG-creation event has occurred and the group has not been torn
down since. -/
structure Machine where
  sm_ : StateMachine 7
  cfg_ : BroadcastStateMachineConfig
  advertising_sid_ : Nat
  is_muted_ : Bool
  addr_type_ : Nat
  big_config_ : Option BigConfig
  pa_enabled_ : Bool
  pending_paths_ : List Nat
  active_paths_ : List Nat
  big_active_ : Bool
deriving DecidableEq, Repr

/-- Raw stored state byte, as kept by the inherited bounded holder. -/
def Machine.GetStateRaw (m : Machine) : Nat := m.sm_.GetState

/-- `inline State GetState(void) const { return static_cast<State>(StateMachine::GetState()); }`. -/
def Machine.GetState (m : Machine) : State := State.fromNat m.GetStateRaw

/-- Protected `void SetState(State state)` forwarding to the bounded holder. -/
def Machine.SetState (m : Machine) (s : State) : Machine :=
  { m with sm_ := m.sm_.SetState s.toNat }

/-- `virtual uint8_t GetAdvertisingSid() const { return advertising_sid_; }`. -/
def Machine.GetAdvertisingSid (m : Machine) : Nat := m.advertising_sid_

/-- `virtual uint8_t GetPaInterval() const { return kPaIntervalMax; }`. -/
def Machine.GetPaInterval (_ : Machine) : Nat := kPaIntervalMax

/-- `void SetMuted(bool muted) { is_muted_ = muted; }`. -/
def Machine.SetMuted (m : Machine) (muted : Bool) : Machine :=
  { m with is_muted_ := muted }

/-- `bool IsMuted() const { return is_muted_; }`. -/
def Machine.IsMuted (m : Machine) : Bool := m.is_muted_

/-- `virtual std::optional<BigConfig> const& GetBigConfig() const`. -/
def Machine.GetBigConfig (m : Machine) : Option BigConfig := m.big_config_

/-- Modelled from the spec: `CreateInstance` constructs one machine in
`STOPPED` state from a `BroadcastStateMachineConfig`; the header's member
initializers give `advertising_sid_ = kAdvSidUndefined` and
`is_muted_ = false`, and the inherited holder starts at its numeric
minimum `0` (`STOPPED`); no `BigConfig` exists yet. -/
def CreateInstance (cfg : BroadcastStateMachineConfig) : Machine :=
  { sm_ := StateMachine.init 7
    cfg_ := cfg
    advertising_sid_ := kAdvSidUndefined
    is_muted_ := false
    addr_type_ := 0
    big_config_ := none
    pa_enabled_ := false
    pending_paths_ := []
    active_paths_ := []
    big_active_ := false }

/-- Modelled from the spec: the inbound events that drive the machine — owner
messages via `ProcessMessage`, and the asynchronous completion callbacks
`OnCreateAnnouncement`, `OnEnableAnnouncement`, `OnSetupIsoDataPath`,
`OnRemoveIsoDataPath`, and the BIG created/terminated and advertising-set
removed completions delivered through `HandleHciEvent` and the advertising
subsystem. -/
inductive Event where
  | Msg (msg : Message)
  | CreateAnnouncementDone (advertising_sid : Nat) (tx_power : Int) (status : Nat)
  | EnableAnnouncementDone (enable : Bool) (status : Nat)
  | BigCreatedEvt (status : Nat) (cfg : BigConfig)
  | SetupIsoDataPathDone (status : Nat) (conn_handle : Nat)
  | RemoveIsoDataPathDone (status : Nat) (conn_handle : Nat)
  | BigTerminatedEvt (big_id : Nat)
  | AdvertisingSetRemoved (status : Nat)
deriving DecidableEq, Repr

/-- Modelled from the spec: the observable effects of one step — upward
notifications to `IBroadcastStateMachineCallbacks` and downward requests to
the advertising subsystem and the controller. -/
inductive Output where
  | Notify (s : State)
  | CreateStatus (ok : Bool)
  | BigCreatedNotify (handles : List Nat)
  | ReqCreateAnnouncement
  | ReqEnablePeriodicAdv
  | ReqCreateBig
  | ReqSetupDataPath (conn_handle : Nat)
  | ReqRemoveDataPath (conn_handle : Nat)
  | ReqTerminateBig
  | ReqRemoveAdvertisingSet
deriving DecidableEq, Repr

/-- Modelled from the spec: entering `STREAMING` requires all three enable-phase
completions — periodic advertising enabled, BIG created, and every per-BIS ISO
data path set up. -/
def maybeStreaming (m : Machine) : Machine × List Output :=
  if m.pa_enabled_ ∧ m.pending_paths_ = [] ∧ m.big_config_.isSome then
    (m.SetState .STREAMING, [Output.Notify .STREAMING])
  else (m, [])

/-- Modelled from the spec: enable failure rolls back to `CONFIGURED`, tearing
down any partially created resources first — every data path already set up in
this attempt is removed and the BIG is terminated if it was created. -/
def rollbackToConfigured (m : Machine) : Machine × List Output :=
  (Machine.SetState
     { m with pa_enabled_ := false
              pending_paths_ := []
              active_paths_ := []
              big_config_ := none
              big_active_ := false } .CONFIGURED,
   m.active_paths_.map Output.ReqRemoveDataPath
     ++ (if m.big_active_ then [Output.ReqTerminateBig] else [])
     ++ [Output.Notify .CONFIGURED])

/-- Modelled from the spec: one serialized step of the broadcast state machine —
the transition table of the specification, including stale-completion
discarding by identifier mismatch.  Returns the next machine and the emitted
notifications/requests. -/
def step (e : Event) (m : Machine) : Machine × List Output :=
  match e with
  | .Msg .START =>
    match m.GetState with
    | .STOPPED =>
        (m.SetState .CONFIGURING,
         [Output.ReqCreateAnnouncement, Output.Notify .CONFIGURING])
    | .CONFIGURED =>
        (Machine.SetState
           { m with pa_enabled_ := false, pending_paths_ := [], active_paths_ := [] } .ENABLING,
         [Output.ReqEnablePeriodicAdv, Output.ReqCreateBig, Output.Notify .ENABLING])
    | _ => (m, [])
  | .Msg .SUSPEND =>
    match m.GetState with
    | .STREAMING =>
        (m.SetState .DISABLING,
         m.active_paths_.map Output.ReqRemoveDataPath
           ++ (if m.active_paths_ = [] then [Output.ReqTerminateBig] else [])
           ++ [Output.Notify .DISABLING])
    | _ => (m, [])
  | .Msg .STOP =>
    match m.GetState with
    | .CONFIGURED =>
        (m.SetState .STOPPING,
         [Output.ReqRemoveAdvertisingSet, Output.Notify .STOPPING])
    | .STREAMING =>
        (Machine.SetState
           { m with pa_enabled_ := false, pending_paths_ := [], active_paths_ := [],
                    big_config_ := none, big_active_ := false } .STOPPING,
         m.active_paths_.map Output.ReqRemoveDataPath
           ++ [Output.ReqTerminateBig, Output.ReqRemoveAdvertisingSet, Output.Notify .STOPPING])
    | _ => (m, [])
  | .CreateAnnouncementDone sid _tx status =>
    match m.GetState with
    | .CONFIGURING =>
        if status = kHciStatusSuccess then
          (Machine.SetState { m with advertising_sid_ := sid } .CONFIGURED,
           [Output.CreateStatus true, Output.Notify .CONFIGURED])
        else
          (m.SetState .STOPPED, [Output.CreateStatus false, Output.Notify .STOPPED])
    | _ => (m, [])
  | .EnableAnnouncementDone enable status =>
    match m.GetState with
    | .ENABLING =>
        if enable then
          if status = kHciStatusSuccess then maybeStreaming { m with pa_enabled_ := true }
          else rollbackToConfigured m
        else (m, [])
    | _ => (m, [])
  | .BigCreatedEvt status cfg =>
    match m.GetState with
    | .ENABLING =>
        if m.big_config_.isSome then (m, [])
        else if status = kHciStatusSuccess then
          let res := maybeStreaming
            { m with big_config_ := some cfg, big_active_ := true,
                     pending_paths_ := cfg.connection_handles }
          (res.1,
           Output.BigCreatedNotify cfg.connection_handles
             :: cfg.connection_handles.map Output.ReqSetupDataPath ++ res.2)
        else rollbackToConfigured m
    | _ => (m, [])
  | .SetupIsoDataPathDone status conn_handle =>
    match m.GetState with
    | .ENABLING =>
        if m.big_config_.isSome ∧ conn_handle ∈ m.pending_paths_ then
          if status = kHciStatusSuccess then
            maybeStreaming
              { m with pending_paths_ := m.pending_paths_.erase conn_handle,
                       active_paths_ := m.active_paths_ ++ [conn_handle] }
          else rollbackToConfigured m
        else (m, [])
    | _ => (m, [])
  | .RemoveIsoDataPathDone _status conn_handle =>
    match m.GetState with
    | .DISABLING =>
        if conn_handle ∈ m.active_paths_ then
          ({ m with active_paths_ := m.active_paths_.erase conn_handle },
           if m.active_paths_.erase conn_handle = [] then [Output.ReqTerminateBig] else [])
        else (m, [])
    | _ => (m, [])
  | .BigTerminatedEvt big_id =>
    match m.GetState with
    | .DISABLING =>
        if m.big_config_.map BigConfig.big_id = some big_id then
          (Machine.SetState
             { m with big_config_ := none, big_active_ := false,
                      pending_paths_ := [], active_paths_ := [] } .CONFIGURED,
           [Output.Notify .CONFIGURED])
        else (m, [])
    | _ => (m, [])
  | .AdvertisingSetRemoved _status =>
    match m.GetState with
    | .STOPPING =>
        (Machine.SetState
           { m with big_config_ := none, big_active_ := false, pa_enabled_ := false,
                    pending_paths_ := [], active_paths_ := [],
                    advertising_sid_ := kAdvSidUndefined } .STOPPED,
         [Output.Notify .STOPPED])
    | _ => (m, [])

/-- Next machine after one step. -/
def nextM (e : Event) (m : Machine) : Machine := (step e m).1

/-- Outputs emitted by one step. -/
def outsM (e : Event) (m : Machine) : List Output := (step e m).2

/-- Machines reachable from a freshly created instance by any sequence of
messages and completion events. -/
inductive Reachable : Machine → Prop where
  | init (cfg : BroadcastStateMachineConfig) : Reachable (CreateInstance cfg)
  | next (e : Event) {m : Machine} : Reachable m → Reachable (nextM e m)

/-- The machine invariant: the raw state byte is within the holder's bound, the
`BigConfig` snapshot exists exactly while a successfully created BIG is alive,
and a live BIG confines the state to `ENABLING`, `STREAMING` or `DISABLING`. -/
def Inv (m : Machine) : Prop :=
  m.GetStateRaw < 7 ∧
  m.big_config_.isSome = m.big_active_ ∧
  (m.big_active_ = true →
    m.GetState = .ENABLING ∨ m.GetState = .STREAMING ∨ m.GetState = .DISABLING)

/-- The tx-power mapping of `btif_ble_advertiser.cc` lines 65-70:
`ble_tx_power` is an array of `BTM_BLE_ADV_TX_POWER_MAX + 1` entries filled
from the config-file macro `BTM_BLE_ADV_TX_POWER` (the macro's values are not
part of this fragment, so the table and bound are parameters here);
`ble_map_adv_tx_power` returns `ble_tx_power[tx_power_index]` when
`0 <= tx_power_index && tx_power_index < BTM_BLE_ADV_TX_POWER_MAX`, else `0`. -/
def ble_map_adv_tx_power (MAX : Nat) (ble_tx_power : List Int) (tx_power_index : Int) : Int :=
  if 0 ≤ tx_power_index ∧ tx_power_index < (MAX : Int) then
    ble_tx_power.getD tx_power_index.toNat 0
  else 0

/-- A concrete configuration used to exercise the theorems on closed inputs. -/
def cfg0 : BroadcastStateMachineConfig :=
  { is_public := false
    broadcast_id := 1
    broadcast_name := "bc"
    streaming_phy := 2
    config := ⟨[]⟩
    public_announcement := ⟨[]⟩
    announcement := ⟨[]⟩
    broadcast_code := none }

/-- A concrete BIG-creation snapshot with two BIS connection handles. -/
def big0 : BigConfig :=
  { status := 0
    big_id := 1
    big_sync_delay := 2048
    transport_latency_big := 3000
    phy := 2
    nse := 1
    bn := 1
    pto := 0
    irc := 1
    max_pdu := 100
    iso_interval := 24
    connection_handles := [10, 11] }

/-- A concrete machine in `CONFIGURING` awaiting the announcement-creation
completion. -/
def mCfg : Machine :=
  { sm_ := ⟨1⟩
    cfg_ := cfg0
    advertising_sid_ := kAdvSidUndefined
    is_muted_ := false
    addr_type_ := 0
    big_config_ := none
    pa_enabled_ := false
    pending_paths_ := []
    active_paths_ := []
    big_active_ := false }

/-- A concrete machine in the middle of an enable attempt: BIG created with
handles 10 and 11, data path 10 already set up, 11 still pending. -/
def mEn : Machine :=
  { sm_ := ⟨3⟩
    cfg_ := cfg0
    advertising_sid_ := 5
    is_muted_ := false
    addr_type_ := 0
    big_config_ := some big0
    pa_enabled_ := true
    pending_paths_ := [11]
    active_paths_ := [10]
    big_active_ := true }

/-- A concrete machine in `ENABLING` before the BIG-creation completion. -/
def mEnPre : Machine :=
  { sm_ := ⟨3⟩
    cfg_ := cfg0
    advertising_sid_ := 5
    is_muted_ := false
    addr_type_ := 0
    big_config_ := none
    pa_enabled_ := false
    pending_paths_ := []
    active_paths_ := []
    big_active_ := false }

/-- Every `State` enumerator's ordinal is below the holder bound 7. -/
theorem State.toNat_lt (s : State) : s.toNat < 7 := by cases s <;> decide

/-- The typed `SetState` always lands on the requested state: the bounded
holder accepts every enumerator ordinal. -/
@[simp]
theorem Machine.GetState_SetState (m : Machine) (s : State) : (m.SetState s).GetState = s := by
  cases s <;> rfl

/-- The raw byte stored by the typed `SetState` is the enumerator ordinal. -/
@[simp]
theorem Machine.GetStateRaw_SetState (m : Machine) (s : State) :
    (m.SetState s).GetStateRaw = s.toNat := by
  cases s <;> rfl

@[simp]
theorem Machine.SetState_big_config (m : Machine) (s : State) :
    (m.SetState s).big_config_ = m.big_config_ := rfl

@[simp]
theorem Machine.SetState_big_active (m : Machine) (s : State) :
    (m.SetState s).big_active_ = m.big_active_ := rfl

@[simp]
theorem Machine.SetState_is_muted (m : Machine) (s : State) :
    (m.SetState s).is_muted_ = m.is_muted_ := rfl

@[simp]
theorem Machine.SetState_advertising_sid (m : Machine) (s : State) :
    (m.SetState s).advertising_sid_ = m.advertising_sid_ := rfl

@[simp]
theorem Machine.SetState_pending_paths (m : Machine) (s : State) :
    (m.SetState s).pending_paths_ = m.pending_paths_ := rfl

@[simp]
theorem Machine.SetState_active_paths (m : Machine) (s : State) :
    (m.SetState s).active_paths_ = m.active_paths_ := rfl

@[simp]
theorem Machine.SetState_pa_enabled (m : Machine) (s : State) :
    (m.SetState s).pa_enabled_ = m.pa_enabled_ := rfl

/-- A freshly created instance satisfies the machine invariant. -/
theorem inv_create (cfg : BroadcastStateMachineConfig) : Inv (CreateInstance cfg) := by
  refine ⟨?_, rfl, ?_⟩
  · simp [CreateInstance, Machine.GetStateRaw, StateMachine.GetState, StateMachine.init]
  · intro h
    simp [CreateInstance] at h

set_option maxHeartbeats 4000000 in
/-- One step of the machine preserves the invariant. -/
theorem inv_step (e : Event) (m : Machine) (h : Inv m) : Inv (nextM e m) := by
  obtain ⟨hraw, hsome, hst⟩ := h
  cases e with
  | Msg msg =>
    cases msg <;> cases hS : m.GetState <;>
      simp_all [nextM, step, Inv, maybeStreaming, rollbackToConfigured, Machine.SetState,
                StateMachine.SetState, Machine.GetState, Machine.GetStateRaw,
                StateMachine.GetState, State.toNat, State.fromNat, kHciStatusSuccess] <;>
      (try split_ifs) <;>
      (try simp_all [Machine.SetState, StateMachine.SetState, Machine.GetState,
                     Machine.GetStateRaw, StateMachine.GetState, State.toNat, State.fromNat])
  | CreateAnnouncementDone sid tx status =>
    cases hS : m.GetState <;>
      simp_all [nextM, step, Inv, maybeStreaming, rollbackToConfigured, Machine.SetState,
                StateMachine.SetState, Machine.GetState, Machine.GetStateRaw,
                StateMachine.GetState, State.toNat, State.fromNat, kHciStatusSuccess] <;>
      (try split_ifs) <;>
      (try simp_all [Machine.SetState, StateMachine.SetState, Machine.GetState,
                     Machine.GetStateRaw, StateMachine.GetState, State.toNat, State.fromNat])
  | EnableAnnouncementDone enable status =>
    cases hS : m.GetState <;>
      simp_all [nextM, step, Inv, maybeStreaming, rollbackToConfigured, Machine.SetState,
                StateMachine.SetState, Machine.GetState, Machine.GetStateRaw,
                StateMachine.GetState, State.toNat, State.fromNat, kHciStatusSuccess] <;>
      (try split_ifs) <;>
      (try simp_all [Machine.SetState, StateMachine.SetState, Machine.GetState,
                     Machine.GetStateRaw, StateMachine.GetState, State.toNat, State.fromNat])
  | BigCreatedEvt status cfg =>
    cases hS : m.GetState <;>
      simp_all [nextM, step, Inv, maybeStreaming, rollbackToConfigured, Machine.SetState,
                StateMachine.SetState, Machine.GetState, Machine.GetStateRaw,
                StateMachine.GetState, State.toNat, State.fromNat, kHciStatusSuccess] <;>
      (try split_ifs) <;>
      (try simp_all [Machine.SetState, StateMachine.SetState, Machine.GetState,
                     Machine.GetStateRaw, StateMachine.GetState, State.toNat, State.fromNat])
  | SetupIsoDataPathDone status conn_handle =>
    cases hS : m.GetState <;>
      simp_all [nextM, step, Inv, maybeStreaming, rollbackToConfigured, Machine.SetState,
                StateMachine.SetState, Machine.GetState, Machine.GetStateRaw,
                StateMachine.GetState, State.toNat, State.fromNat, kHciStatusSuccess] <;>
      (try split_ifs) <;>
      (try simp_all [Machine.SetState, StateMachine.SetState, Machine.GetState,
                     Machine.GetStateRaw, StateMachine.GetState, State.toNat, State.fromNat])
  | RemoveIsoDataPathDone status conn_handle =>
    cases hS : m.GetState <;>
      simp_all [nextM, step, Inv, maybeStreaming, rollbackToConfigured, Machine.SetState,
                StateMachine.SetState, Machine.GetState, Machine.GetStateRaw,
                StateMachine.GetState, State.toNat, State.fromNat, kHciStatusSuccess] <;>
      (try split_ifs) <;>
      (try simp_all [Machine.SetState, StateMachine.SetState, Machine.GetState,
                     Machine.GetStateRaw, StateMachine.GetState, State.toNat, State.fromNat])
  | BigTerminatedEvt big_id =>
    cases hS : m.GetState <;>
      simp_all [nextM, step, Inv, maybeStreaming, rollbackToConfigured, Machine.SetState,
                StateMachine.SetState, Machine.GetState, Machine.GetStateRaw,
                StateMachine.GetState, State.toNat, State.fromNat, kHciStatusSuccess] <;>
      (try split_ifs) <;>
      (try simp_all [Machine.SetState, StateMachine.SetState, Machine.GetState,
                     Machine.GetStateRaw, StateMachine.GetState, State.toNat, State.fromNat])
  | AdvertisingSetRemoved status =>
    cases hS : m.GetState <;>
      simp_all [nextM, step, Inv, maybeStreaming, rollbackToConfigured, Machine.SetState,
                StateMachine.SetState, Machine.GetState, Machine.GetStateRaw,
                StateMachine.GetState, State.toNat, State.fromNat, kHciStatusSuccess] <;>
      (try split_ifs) <;>
      (try simp_all [Machine.SetState, StateMachine.SetState, Machine.GetState,
                     Machine.GetStateRaw, StateMachine.GetState, State.toNat, State.fromNat])

/-- Every reachable machine satisfies the invariant. -/
theorem reachable_inv {m : Machine} (h : Reachable m) : Inv m := by
  induction h with
  | init cfg => exact inv_create cfg
  | next e hr ih => exact inv_step e _ ih

set_option maxHeartbeats 4000000 in
/-- No transition of the machine ever touches the mute flag. -/
theorem muted_next (e : Event) (m : Machine) : (nextM e m).is_muted_ = m.is_muted_ := by
  cases e with
  | Msg msg =>
    cases msg <;> cases hS : m.GetState <;>
      simp_all [nextM, step, maybeStreaming, rollbackToConfigured, Machine.SetState,
                StateMachine.SetState, State.toNat] <;>
      (try split_ifs) <;> (try rfl)
  | CreateAnnouncementDone sid tx status =>
    cases hS : m.GetState <;>
      simp_all [nextM, step, maybeStreaming, rollbackToConfigured, Machine.SetState,
                StateMachine.SetState, State.toNat] <;>
      (try split_ifs) <;> (try rfl)
  | EnableAnnouncementDone enable status =>
    cases hS : m.GetState <;>
      simp_all [nextM, step, maybeStreaming, rollbackToConfigured, Machine.SetState,
                StateMachine.SetState, State.toNat] <;>
      (try split_ifs) <;> (try rfl)
  | BigCreatedEvt status cfg =>
    cases hS : m.GetState <;>
      simp_all [nextM, step, maybeStreaming, rollbackToConfigured, Machine.SetState,
                StateMachine.SetState, State.toNat] <;>
      (try split_ifs) <;> (try rfl)
  | SetupIsoDataPathDone status conn_handle =>
    cases hS : m.GetState <;>
      simp_all [nextM, step, maybeStreaming, rollbackToConfigured, Machine.SetState,
                StateMachine.SetState, State.toNat] <;>
      (try split_ifs) <;> (try rfl)
  | RemoveIsoDataPathDone status conn_handle =>
    cases hS : m.GetState <;>
      simp_all [nextM, step, maybeStreaming, rollbackToConfigured, Machine.SetState,
                StateMachine.SetState, State.toNat] <;>
      (try split_ifs) <;> (try rfl)
  | BigTerminatedEvt big_id =>
    cases hS : m.GetState <;>
      simp_all [nextM, step, maybeStreaming, rollbackToConfigured, Machine.SetState,
                StateMachine.SetState, State.toNat] <;>
      (try split_ifs) <;> (try rfl)
  | AdvertisingSetRemoved status =>
    cases hS : m.GetState <;>
      simp_all [nextM, step, maybeStreaming, rollbackToConfigured, Machine.SetState,
                StateMachine.SetState, State.toNat] <;>
      (try split_ifs) <;> (try rfl)

/-- The mute flag survives any sequence of transitions. -/
theorem muted_foldl (evs : List Event) (m : Machine) :
    (List.foldl (fun acc e => nextM e acc) m evs).is_muted_ = m.is_muted_ := by
  induction evs generalizing m with
  | nil => rfl
  | cons e t ih => rw [List.foldl_cons, ih, muted_next]

/-- C1: after every operation from creation onward (message processing,
hardware-completion callbacks, state transitions), `GetBigConfig()` is present
exactly when a successful BIG-creation event has occurred whose group has not
yet been torn down (`big_active_`) and the state is `ENABLING`, `STREAMING` or
`DISABLING`; in `STOPPED`, `CONFIGURING`, `CONFIGURED` and `STOPPING` it is
always absent. -/
theorem C1_big_config_presence (m : Machine) (h : Reachable m) :
    ((m.GetBigConfig).isSome = true ↔
      m.big_active_ = true ∧
        (m.GetState = .ENABLING ∨ m.GetState = .STREAMING ∨ m.GetState = .DISABLING)) ∧
    ((m.GetState = .STOPPED ∨ m.GetState = .CONFIGURING ∨
        m.GetState = .CONFIGURED ∨ m.GetState = .STOPPING) → m.GetBigConfig = none) := by
  obtain ⟨hraw, hsome, hst⟩ := reachable_inv h
  constructor
  · constructor
    · intro hs
      have hb : m.big_active_ = true := by
        rw [Machine.GetBigConfig] at hs
        rw [hs] at hsome
        exact hsome.symm
      exact ⟨hb, hst hb⟩
    · rintro ⟨hb, _⟩
      show m.big_config_.isSome = true
      rw [hsome, hb]
  · intro hq
    have hb : m.big_active_ = false := by
      by_contra hcon
      rw [Bool.not_eq_false] at hcon
      rcases hst hcon with h1 | h1 | h1 <;> rcases hq with h2 | h2 | h2 | h2 <;>
        rw [h2] at h1 <;> exact absurd h1 (by decide)
    show m.big_config_ = none
    cases ho : m.big_config_ with
    | none => rfl
    | some c =>
      rw [ho, hb] at hsome
      simp at hsome

/-- Closed-input witness for C1, at a freshly created machine. -/
theorem C1_big_config_presence_witness :
    (((CreateInstance cfg0).GetBigConfig).isSome = true ↔
      (CreateInstance cfg0).big_active_ = true ∧
        ((CreateInstance cfg0).GetState = .ENABLING ∨
         (CreateInstance cfg0).GetState = .STREAMING ∨
         (CreateInstance cfg0).GetState = .DISABLING)) ∧
    (((CreateInstance cfg0).GetState = .STOPPED ∨
      (CreateInstance cfg0).GetState = .CONFIGURING ∨
      (CreateInstance cfg0).GetState = .CONFIGURED ∨
      (CreateInstance cfg0).GetState = .STOPPING) →
      (CreateInstance cfg0).GetBigConfig = none) :=
  C1_big_config_presence (CreateInstance cfg0) (Reachable.init cfg0)

/-- C2: on the bounded holder instantiated with `S = 7` (the base of
`BroadcastStateMachine`), `SetState(n)` stores `n` when `n < 7` and silently
leaves the stored value unchanged when `n >= 7`; `GetState()` returns exactly
the stored value. -/
theorem C2_set_state_guard (v n : Nat) :
    (n < 7 → (StateMachine.SetState (⟨v⟩ : StateMachine 7) n).GetState = n) ∧
    (7 ≤ n → (StateMachine.SetState (⟨v⟩ : StateMachine 7) n).GetState = v) ∧
    (∀ w : Nat, (⟨w⟩ : StateMachine 7).GetState = w) := by
  refine ⟨?_, ?_, fun w => rfl⟩
  · intro h
    simp [StateMachine.SetState, StateMachine.GetState, h]
  · intro h
    simp [StateMachine.SetState, StateMachine.GetState, Nat.not_lt.mpr h]

/-- Closed-input witness for C2: storing 3 succeeds, storing 9 is rejected. -/
theorem C2_set_state_guard_witness :
    (StateMachine.SetState (⟨5⟩ : StateMachine 7) 3).GetState = 3 ∧
    (StateMachine.SetState (⟨5⟩ : StateMachine 7) 9).GetState = 5 :=
  ⟨(C2_set_state_guard 5 3).1 (by decide), (C2_set_state_guard 5 9).2.1 (by decide)⟩

/-- C3: the raw stored state starts at the numeric minimum 0 (`STOPPED`),
every `SetState` call keeps it in `[0, 7)`, the values below 7 are exactly the
ordinals of the seven declared enumerators, and on every reachable machine the
raw byte stays below 7, so the typed `GetState()` yields the enumerator with
precisely that ordinal and is never a corrupted value. -/
theorem C3_raw_state_bounded :
    (StateMachine.init 7).GetState = 0 ∧
    State.fromNat (StateMachine.init 7).GetState = State.STOPPED ∧
    (∀ v n : Nat, v < 7 → (StateMachine.SetState (⟨v⟩ : StateMachine 7) n).GetState < 7) ∧
    (∀ v : Nat, v < 7 → (State.fromNat v).toNat = v) ∧
    (∀ m : Machine, Reachable m → m.GetStateRaw < 7 ∧ m.GetState.toNat = m.GetStateRaw) := by
  refine ⟨rfl, rfl, ?_, ?_, ?_⟩
  · intro v n hv
    by_cases h : n < 7
    · simpa [StateMachine.SetState, StateMachine.GetState, h] using h
    · simpa [StateMachine.SetState, StateMachine.GetState, h] using hv
  · intro v hv
    interval_cases v <;> rfl
  · intro m hr
    have hraw := (reachable_inv hr).1
    refine ⟨hraw, ?_⟩
    show (State.fromNat m.GetStateRaw).toNat = m.GetStateRaw
    revert hraw
    generalize m.GetStateRaw = r
    intro h7
    interval_cases r <;> rfl

/-- Closed-input witness for C3: a rejected out-of-range store keeps the bound,
ordinal 4 round-trips, and a fresh machine has raw state below 7 matching its
typed state. -/
theorem C3_raw_state_bounded_witness :
    (StateMachine.SetState (⟨6⟩ : StateMachine 7) 200).GetState < 7 ∧
    (State.fromNat 4).toNat = 4 ∧
    ((CreateInstance cfg0).GetStateRaw < 7 ∧
      (CreateInstance cfg0).GetState.toNat = (CreateInstance cfg0).GetStateRaw) :=
  ⟨C3_raw_state_bounded.2.2.1 6 200 (by decide),
   C3_raw_state_bounded.2.2.2.1 4 (by decide),
   C3_raw_state_bounded.2.2.2.2 (CreateInstance cfg0) (Reachable.init cfg0)⟩

/-- C4: every machine returned by `CreateInstance` is in `STOPPED`, has no
`BigConfig`, and reports `GetAdvertisingSid() = 0xFF`, the `kAdvSidUndefined`
sentinel. -/
theorem C4_create_instance_postcondition (cfg : BroadcastStateMachineConfig) :
    (CreateInstance cfg).GetState = State.STOPPED ∧
    (CreateInstance cfg).GetBigConfig = none ∧
    (CreateInstance cfg).GetAdvertisingSid = 0xFF ∧
    (CreateInstance cfg).GetAdvertisingSid = kAdvSidUndefined :=
  ⟨rfl, rfl, rfl, rfl⟩

/-- C5: while `ENABLING`, a failed per-BIS ISO data-path setup completion for a
pending handle — or a failed BIG creation — returns the machine to
`CONFIGURED` and tears down every partially created resource: all data paths
set up earlier in the attempt are removed (a removal request is issued for
each and none stays active), the BIG is terminated if it was created, and no
ISO handle remains held. -/
theorem C5_enable_failure_rollback (m : Machine) (status conn_handle : Nat) (cfg : BigConfig) :
    (m.GetState = .ENABLING → m.big_config_.isSome = true → m.big_active_ = true →
      conn_handle ∈ m.pending_paths_ → status ≠ kHciStatusSuccess →
      (nextM (.SetupIsoDataPathDone status conn_handle) m).GetState = .CONFIGURED ∧
      (nextM (.SetupIsoDataPathDone status conn_handle) m).active_paths_ = [] ∧
      (nextM (.SetupIsoDataPathDone status conn_handle) m).pending_paths_ = [] ∧
      (nextM (.SetupIsoDataPathDone status conn_handle) m).GetBigConfig = none ∧
      (∀ p ∈ m.active_paths_,
        Output.ReqRemoveDataPath p ∈ outsM (.SetupIsoDataPathDone status conn_handle) m) ∧
      Output.ReqTerminateBig ∈ outsM (.SetupIsoDataPathDone status conn_handle) m) ∧
    (m.GetState = .ENABLING → m.big_config_ = none → status ≠ kHciStatusSuccess →
      (nextM (.BigCreatedEvt status cfg) m).GetState = .CONFIGURED ∧
      (nextM (.BigCreatedEvt status cfg) m).GetBigConfig = none ∧
      (nextM (.BigCreatedEvt status cfg) m).active_paths_ = []) := by
  constructor
  · intro hS hb ha hp hf
    refine ⟨?_, ?_, ?_, ?_, ?_, ?_⟩ <;>
      simp_all [nextM, outsM, step, rollbackToConfigured, Machine.GetBigConfig,
                kHciStatusSuccess]
  · intro hS hb hf
    refine ⟨?_, ?_, ?_⟩ <;>
      simp_all [nextM, outsM, step, rollbackToConfigured, Machine.GetBigConfig,
                kHciStatusSuccess]

/-- Closed-input witness for C5: machine `mEn` (BIG created, path 10 active,
path 11 pending) receives a failed setup for handle 11. -/
theorem C5_enable_failure_rollback_witness :
    (nextM (.SetupIsoDataPathDone 1 11) mEn).GetState = .CONFIGURED ∧
    (nextM (.SetupIsoDataPathDone 1 11) mEn).active_paths_ = [] ∧
    (nextM (.SetupIsoDataPathDone 1 11) mEn).pending_paths_ = [] ∧
    (nextM (.SetupIsoDataPathDone 1 11) mEn).GetBigConfig = none ∧
    (∀ p ∈ mEn.active_paths_,
      Output.ReqRemoveDataPath p ∈ outsM (.SetupIsoDataPathDone 1 11) mEn) ∧
    Output.ReqTerminateBig ∈ outsM (.SetupIsoDataPathDone 1 11) mEn :=
  (C5_enable_failure_rollback mEn 1 11 big0).1 (by decide) (by decide) (by decide)
    (by decide) (by decide)

/-- C6: a stale `OnSetupIsoDataPath` completion — its connection handle not
among the pending handles of the current BIG, or no BIG present, or the
machine no longer enabling — never changes the machine (state, `BigConfig`,
anything) and produces no notification or request: it is silently discarded. -/
theorem C6_stale_setup_discarded (m : Machine) (status conn_handle : Nat) :
    (conn_handle ∉ m.pending_paths_ →
      nextM (.SetupIsoDataPathDone kHciStatusSuccess conn_handle) m = m ∧
      outsM (.SetupIsoDataPathDone kHciStatusSuccess conn_handle) m = []) ∧
    (m.big_config_ = none →
      nextM (.SetupIsoDataPathDone kHciStatusSuccess conn_handle) m = m ∧
      outsM (.SetupIsoDataPathDone kHciStatusSuccess conn_handle) m = []) ∧
    (m.GetState ≠ .ENABLING →
      nextM (.SetupIsoDataPathDone status conn_handle) m = m ∧
      outsM (.SetupIsoDataPathDone status conn_handle) m = []) := by
  refine ⟨?_, ?_, ?_⟩ <;> intro h <;> cases hS : m.GetState <;>
    simp_all [nextM, outsM, step]

/-- Closed-input witness for C6: a success completion for handle 99 (from a
torn-down BIG, not pending in `mEn`) is discarded, and a completion in
`STOPPED` is discarded. -/
theorem C6_stale_setup_discarded_witness :
    (nextM (.SetupIsoDataPathDone kHciStatusSuccess 99) mEn = mEn ∧
      outsM (.SetupIsoDataPathDone kHciStatusSuccess 99) mEn = []) ∧
    (nextM (.SetupIsoDataPathDone 0 10) (CreateInstance cfg0) = CreateInstance cfg0 ∧
      outsM (.SetupIsoDataPathDone 0 10) (CreateInstance cfg0) = []) :=
  ⟨(C6_stale_setup_discarded mEn 0 99).1 (by decide),
   (C6_stale_setup_discarded (CreateInstance cfg0) 0 10).2.2 (by decide)⟩

/-- C7: while `CONFIGURING`, a failed `OnCreateAnnouncement` completion moves
the machine to `STOPPED`, reports the failure exactly once to the owner and
issues no retry; a successful one moves it to `CONFIGURED` and caches the
assigned advertising SID. -/
theorem C7_configuring_completion (m : Machine) (sid : Nat) (tx : Int) (status : Nat)
    (hS : m.GetState = .CONFIGURING) :
    (status ≠ kHciStatusSuccess →
      (nextM (.CreateAnnouncementDone sid tx status) m).GetState = .STOPPED ∧
      (outsM (.CreateAnnouncementDone sid tx status) m).count (Output.CreateStatus false) = 1 ∧
      Output.ReqCreateAnnouncement ∉ outsM (.CreateAnnouncementDone sid tx status) m) ∧
    (status = kHciStatusSuccess →
      (nextM (.CreateAnnouncementDone sid tx status) m).GetState = .CONFIGURED ∧
      (nextM (.CreateAnnouncementDone sid tx status) m).GetAdvertisingSid = sid) := by
  constructor <;> intro h <;>
    simp_all [nextM, outsM, step, Machine.GetAdvertisingSid, kHciStatusSuccess,
              List.count_cons]

/-- Closed-input witness for C7: machine `mCfg` in `CONFIGURING` with a failed
(status 1) and a successful (status 0) completion. -/
theorem C7_configuring_completion_witness :
    ((nextM (.CreateAnnouncementDone 4 7 1) mCfg).GetState = .STOPPED ∧
      (outsM (.CreateAnnouncementDone 4 7 1) mCfg).count (Output.CreateStatus false) = 1 ∧
      Output.ReqCreateAnnouncement ∉ outsM (.CreateAnnouncementDone 4 7 1) mCfg) ∧
    ((nextM (.CreateAnnouncementDone 4 7 0) mCfg).GetState = .CONFIGURED ∧
      (nextM (.CreateAnnouncementDone 4 7 0) mCfg).GetAdvertisingSid = 4) :=
  ⟨(C7_configuring_completion mCfg 4 7 1 (by decide)).1 (by decide),
   (C7_configuring_completion mCfg 4 7 0 (by decide)).2 (by decide)⟩

/-- C8: `SetMuted(b)` changes only the mute flag — `IsMuted()` then returns
`b` while the state, the advertising SID and the BIG configuration are
untouched — and no transition ever changes the flag, so after `SetMuted(true)`
any sequence of events (in particular a SUSPEND then START cycle through
`ENABLING` to `STREAMING`) still reports `IsMuted() = true`. -/
theorem C8_mute_flag_independent (m : Machine) (b : Bool) :
    (m.SetMuted b).IsMuted = b ∧
    (m.SetMuted b).GetState = m.GetState ∧
    (m.SetMuted b).GetAdvertisingSid = m.GetAdvertisingSid ∧
    (m.SetMuted b).GetBigConfig = m.GetBigConfig ∧
    (∀ e : Event, (nextM e m).IsMuted = m.IsMuted) ∧
    (∀ evs : List Event,
      (List.foldl (fun acc e => nextM e acc) (m.SetMuted true) evs).IsMuted = true) := by
  refine ⟨rfl, rfl, rfl, rfl, fun e => muted_next e m, fun evs => ?_⟩
  show (List.foldl (fun acc e => nextM e acc) (m.SetMuted true) evs).is_muted_ = true
  rw [muted_foldl]
  rfl

/-- C9: `GetPaInterval()` returns the constant `kPaIntervalMax` (0xA0, 100 ms)
on every machine in every state; the declared `kPaIntervalMin` (0x50) is never
returned. -/
theorem C9_pa_interval_constant (m : Machine) :
    m.GetPaInterval = kPaIntervalMax ∧
    m.GetPaInterval = 0xA0 ∧
    m.GetPaInterval ≠ kPaIntervalMin :=
  ⟨rfl, rfl, by simp [Machine.GetPaInterval, kPaIntervalMax, kPaIntervalMin]⟩

/-- C10: `ble_map_adv_tx_power` returns `ble_tx_power[tx_power_index]` exactly
when `0 <= tx_power_index < BTM_BLE_ADV_TX_POWER_MAX` and `0` otherwise, never
reading outside the table; the index equal to `BTM_BLE_ADV_TX_POWER_MAX`
yields `0` even though the table has `BTM_BLE_ADV_TX_POWER_MAX + 1` entries,
and the result never depends on the last table entry (it is unreachable). -/
theorem C10_tx_power_mapping (MAX : Nat) (t : List Int) (i : Int)
    (hlen : t.length = MAX + 1) :
    (0 ≤ i → i < (MAX : Int) →
      ∃ hj : i.toNat < t.length, ble_map_adv_tx_power MAX t i = t.get ⟨i.toNat, hj⟩) ∧
    (i < 0 ∨ (MAX : Int) ≤ i → ble_map_adv_tx_power MAX t i = 0) ∧
    ble_map_adv_tx_power MAX t (MAX : Int) = 0 ∧
    ble_map_adv_tx_power MAX t i = ble_map_adv_tx_power MAX (t.take MAX) i := by
  refine ⟨?_, ?_, ?_, ?_⟩
  · intro h0 hM
    have hj : i.toNat < t.length := by
      rw [hlen]
      omega
    refine ⟨hj, ?_⟩
    rw [ble_map_adv_tx_power, if_pos ⟨h0, hM⟩, List.getD_eq_getElem?_getD,
        List.getElem?_eq_getElem hj]
    rfl
  · intro h
    rw [ble_map_adv_tx_power]
    split_ifs with hc
    · exfalso
      omega
    · rfl
  · rw [ble_map_adv_tx_power]
    split_ifs with hc
    · exfalso
      omega
    · rfl
  · rw [ble_map_adv_tx_power, ble_map_adv_tx_power]
    split_ifs with hc
    · have hi : i.toNat < MAX := by omega
      rw [List.getD_eq_getElem?_getD, List.getD_eq_getElem?_getD, List.getElem?_take,
          if_pos hi]
    · rfl

/-- Closed-input witness for C10, at the default AOSP tx-power table
(-21, -15, -7, 1, 9) with `BTM_BLE_ADV_TX_POWER_MAX = 4`: index 2 reads the
table, index 4 (the bound) and index -1 return 0, and the result at index 3
ignores the last entry. -/
theorem C10_tx_power_mapping_witness :
    ble_map_adv_tx_power 4 [-21, -15, -7, 1, 9] 4 = 0 ∧
    ble_map_adv_tx_power 4 [-21, -15, -7, 1, 9] (-1) = 0 ∧
    ble_map_adv_tx_power 4 [-21, -15, -7, 1, 9] 3 =
      ble_map_adv_tx_power 4 (([-21, -15, -7, 1, 9] : List Int).take 4) 3 ∧
    ble_map_adv_tx_power 4 [-21, -15, -7, 1, 9] 2 = -7 := by
  refine ⟨(C10_tx_power_mapping 4 [-21, -15, -7, 1, 9] 4 (by decide)).2.2.1,
          (C10_tx_power_mapping 4 [-21, -15, -7, 1, 9] (-1) (by decide)).2.1
            (Or.inl (by decide)),
          (C10_tx_power_mapping 4 [-21, -15, -7, 1, 9] 3 (by decide)).2.2.2, ?_⟩
  obtain ⟨hj, he⟩ :=
    (C10_tx_power_mapping 4 [-21, -15, -7, 1, 9] 2 (by decide)).1 (by decide) (by decide)
  rw [he]
  rfl

end BtBroadcast
